import Mathlib

/-!
# Presence & proximity visibility: a shallow embedding of the motocosmos core

This file embeds, in Lean 4, the presence/visibility subsystem of the
motocosmos Go repository and proves (or refutes) the frozen claims about it.

Sources embedded here:

* `repositories.LocationRepository` (location repository file):
  `UpdateUserLocation`, `GetUserLocation`, `GetVisibleLocations`,
  `getFriendIDs`, `GetVisibilitySettings`, `UpdateVisibilitySettings`,
  `SetAllowedUsers`, `IsUserAllowedToSeeLocation`, `areFriends`,
  `CleanupOldLocations`.
* `services.LocationService` (`/services/location_service.go`):
  `UpdateLocation`, `GetLocatorData`, `UpdateVisibilitySettings`,
  `applyAccuracyLevel`, `calculateDistance`, `roundToDecimal`,
  `isValidLatitude`, `isValidLongitude`, `CleanupInactiveLocations`.
* `controllers.LocatorController.UpdateVisibility` and
  `controllers.FriendController` (`SendFriendRequest`, `AcceptFriendRequest`,
  `RejectFriendRequest`, `RemoveFriend`, `areFriends`).

Modelling conventions:

* Go `float64` is embedded as `ℚ` for coordinates (the code only ever
  multiplies by powers of ten, rounds, and compares them, which is exact),
  and as `ℝ` for the haversine distance computation (which uses `math.Sin`,
  `math.Cos`, `math.Atan2`, `math.Sqrt`); exact real arithmetic is the
  standard idealization of the float computation.
* Go `time.Time` is embedded as `ℤ` (seconds); `time.Now()` becomes an
  explicit `now : ℤ` argument, and `time.Duration` an integer number of
  seconds.
* The gorm-backed tables become lists of rows inside a `DB` record; `First`
  becomes `List.find?`, `Create` an append, a keyed `Updates` a positional
  `List.map` replacement, `Delete` a first-match erase, and a gorm
  transaction a single atomic state change.
* HTTP handlers become functions `DB → args → Option Err × DB`: the first
  component is the error response (`none` on success), the second the
  resulting database state.
-/

namespace Motocosmos

/-- Error taxonomy of the HTTP layer.  Each constructor corresponds to a
distinct error response produced by the Go controllers/services:
`invalidCoordinate` is the `"invalid coordinates"` error of
`LocationService.UpdateLocation`; `invalidArgument` covers the 400-class
validation failures (gin `ShouldBindJSON` binding errors and the
"Custom visibility mode requires at least one allowed user" check);
`notFound` the 404 responses; `selfReference` the
"Cannot send friend request to yourself" 400; `alreadyFriends` and
`duplicateRequest` the two 409 conflicts of `SendFriendRequest`. -/
inductive Err where
  | invalidCoordinate
  | invalidArgument
  | notFound
  | selfReference
  | alreadyFriends
  | duplicateRequest
deriving DecidableEq, Repr

/-- `models.UserLocation` (file `/models/location.go`): one presence row per
user.  `latitude`/`longitude` are the raw most recent fix, `lastSeen` and
`updatedAt` are timestamps in seconds. -/
structure UserLocation where
  id : String
  userId : String
  username : String
  latitude : ℚ
  longitude : ℚ
  accuracy : ℚ
  isAvailable : Bool
  isOnline : Bool
  lastSeen : ℤ
  status : String
  updatedAt : ℤ
deriving DecidableEq, Repr

/-- `models.LocationVisibilitySettings`: per-user visibility mode
(`"all" | "friends" | "custom" | "none"`) and accuracy level
(`"precise" | "approximate" | "city"`), both stored as strings as in Go. -/
structure LocationVisibilitySettings where
  userId : String
  visibilityMode : String
  accuracyLevel : String
deriving DecidableEq, Repr

/-- `models.LocationVisibilityAllowed`: one row per (owner, allowed viewer)
pair of the custom-mode allow-list. -/
structure LocationVisibilityAllowed where
  ownerUserId : String
  allowedUserId : String
deriving DecidableEq, Repr

/-- `models.Friendship`: symmetric friendship stored canonically
(`user1Id < user2Id` at every creation site). -/
structure Friendship where
  user1Id : String
  user2Id : String
deriving DecidableEq, Repr

/-- Status of a `models.FriendRequest`
(`FriendRequestStatusPending/Accepted/Rejected`). -/
inductive RequestStatus where
  | pending
  | accepted
  | rejected
deriving DecidableEq, Repr

/-- `models.FriendRequest`: directed handshake row with a numeric primary
key (gorm auto-increment `uint`). -/
structure FriendRequest where
  id : ℕ
  senderId : String
  receiverId : String
  status : RequestStatus
deriving DecidableEq, Repr

/-- A row of the `users` table; only the fields the embedded code reads. -/
structure GoUser where
  id : String
  name : String
deriving DecidableEq, Repr

/-- The durable store: each gorm table as a list of rows, plus the
auto-increment counter for `friend_requests`. -/
structure DB where
  users : List GoUser
  locations : List UserLocation
  settings : List LocationVisibilitySettings
  allowed : List LocationVisibilityAllowed
  friendships : List Friendship
  requests : List FriendRequest
  nextRequestId : ℕ
deriving DecidableEq, Repr

/-- `models.UpdateLocationRequest`: body of `POST /locator/location`.
`isAvailable` is a `*bool` in Go, hence `Option Bool` here; an absent
`accuracy_level` binds to the empty string. -/
structure UpdateLocationRequest where
  latitude : ℚ
  longitude : ℚ
  accuracy : ℚ
  isAvailable : Option Bool
  accuracyLevel : String
  status : String
deriving DecidableEq, Repr

/-- `models.UpdateVisibilityRequest`: body of `POST /locator/visibility`. -/
structure UpdateVisibilityRequest where
  visibilityMode : String
  accuracyLevel : String
  allowedUserIDs : List String
deriving DecidableEq, Repr

/-! ## Pure helpers of `LocationService` -/

/-- Go `math.Round`: round to nearest integer, halves away from zero. -/
def goRound (x : ℚ) : ℤ :=
  if 0 ≤ x then ⌊x + 1 / 2⌋ else ⌈x - 1 / 2⌉

/-- `roundToDecimal` from `/services/location_service.go`: round `val` to
`precision` decimal places via `math.Round(val*ratio)/ratio`. -/
def roundToDecimal (val : ℚ) (precision : ℕ) : ℚ :=
  let ratio : ℚ := 10 ^ precision
  (goRound (val * ratio) : ℚ) / ratio

/-- `applyAccuracyLevel`: degrade coordinates by the accuracy level —
`precise` is the identity, `approximate` rounds to 3 decimals, `city` to
1 decimal, and any other string (including the empty string) falls through
to the identity default. -/
def applyAccuracyLevel (lat lng : ℚ) (level : String) : ℚ × ℚ :=
  match level with
  | "precise" => (lat, lng)
  | "approximate" => (roundToDecimal lat 3, roundToDecimal lng 3)
  | "city" => (roundToDecimal lat 1, roundToDecimal lng 1)
  | _ => (lat, lng)

/-- `isValidLatitude`: `lat >= -90 && lat <= 90`. -/
def isValidLatitude (lat : ℚ) : Bool :=
  decide (-90 ≤ lat) && decide (lat ≤ 90)

/-- `isValidLongitude`: `lng >= -180 && lng <= 180`. -/
def isValidLongitude (lng : ℚ) : Bool :=
  decide (-180 ≤ lng) && decide (lng ≤ 180)

/-! ## Rounding lemmas -/

/-- `goRound` fixes integers. -/
theorem goRound_intCast (n : ℤ) : goRound (n : ℚ) = n := by
  unfold goRound
  by_cases h : (0 : ℚ) ≤ (n : ℚ)
  · rw [if_pos h]
    rw [show ((n : ℚ) + 1 / 2) = (n : ℚ) + 1 / 2 from rfl]
    rw [Int.floor_int_add]
    norm_num
  · rw [if_neg h]
    rw [show ((n : ℚ) - 1 / 2) = -(1 / 2) + (n : ℚ) by ring]
    rw [Int.ceil_add_int]
    norm_num

/-- `roundToDecimal` is idempotent: rounding an already-rounded value at the
same precision leaves it unchanged. -/
theorem roundToDecimal_idem (val : ℚ) (p : ℕ) :
    roundToDecimal (roundToDecimal val p) p = roundToDecimal val p := by
  show ((goRound ((goRound (val * 10 ^ p) : ℚ) / 10 ^ p * 10 ^ p) : ℚ) / 10 ^ p)
      = (goRound (val * 10 ^ p) : ℚ) / 10 ^ p
  have hr : (10 : ℚ) ^ p ≠ 0 := by positivity
  rw [div_mul_cancel₀ _ hr, goRound_intCast]

/-! ## `repositories.LocationRepository` -/

/-- Merge of an `Updates` call in `UpdateUserLocation`: overwrite the
mutable fields of the existing row with the incoming row's values and touch
`updated_at` (the map passed to gorm lists exactly these columns). -/
def mergeLocation (existing incoming : UserLocation) (now : ℤ) : UserLocation :=
  { existing with
    latitude := incoming.latitude
    longitude := incoming.longitude
    accuracy := incoming.accuracy
    isAvailable := incoming.isAvailable
    isOnline := incoming.isOnline
    lastSeen := incoming.lastSeen
    status := incoming.status
    updatedAt := now }

/-- `LocationRepository.UpdateUserLocation`: `First` on `user_id`; on
`ErrRecordNotFound` `Create` the row, otherwise update the found row
(keyed by its primary key) with the merge map. -/
def updateUserLocation (db : DB) (location : UserLocation) (now : ℤ) : DB :=
  match db.locations.find? (fun l => l.userId == location.userId) with
  | none => { db with locations := db.locations ++ [location] }
  | some existing =>
      { db with
        locations := db.locations.map (fun l =>
          if l.id == existing.id then mergeLocation l location now else l) }

/-- `LocationRepository.GetUserLocation`: `First` on `user_id`. -/
def getUserLocation (db : DB) (userID : String) : Option UserLocation :=
  db.locations.find? (fun l => l.userId == userID)

/-- `LocationRepository.getFriendIDs`: the opposite side of every
friendship row touching `userID`. -/
def getFriendIDs (db : DB) (userID : String) : List String :=
  (db.friendships.filter (fun f => f.user1Id == userID || f.user2Id == userID)).map
    (fun f => if f.user1Id == userID then f.user2Id else f.user1Id)

/-- `LocationRepository.GetVisibilitySettings`: `First` on `user_id`. -/
def getVisibilitySettings (db : DB) (userID : String) :
    Option LocationVisibilitySettings :=
  db.settings.find? (fun s => s.userId == userID)

/-- The allow-list probe inside the `"custom"` branches: `First` on
`(owner_user_id, allowed_user_id)`, succeeding iff such a row exists. -/
def allowedRowExists (db : DB) (ownerUserID requestingUserID : String) : Bool :=
  (db.allowed.find? (fun a =>
    a.ownerUserId == ownerUserID && a.allowedUserId == requestingUserID)).isSome

/-- The per-owner filter in the loop body of
`LocationRepository.GetVisibleLocations`: keep the row when the owner has
no settings row (default friends-only), or mode `"all"`/`"friends"`, or
mode `"custom"` with the viewer on the owner's allow-list; drop it on
`"none"`, and (the Go `switch` has no `default` case) on any other mode. -/
def visibleToViewer (db : DB) (viewerID : String) (loc : UserLocation) : Bool :=
  match getVisibilitySettings db loc.userId with
  | none => true
  | some ownerSettings =>
      match ownerSettings.visibilityMode with
      | "all" => true
      | "friends" => true
      | "custom" => allowedRowExists db loc.userId viewerID
      | "none" => false
      | _ => false

/-- `LocationRepository.GetVisibleLocations`: collect the viewer's friend
ids (empty list short-circuits to an empty result), select the online
locations of those friends, then filter by each owner's visibility
settings. -/
def getVisibleLocations (db : DB) (userID : String) : List UserLocation :=
  let friendIDs := getFriendIDs db userID
  if friendIDs.length == 0 then []
  else
    let allLocations := db.locations.filter (fun l =>
      friendIDs.contains l.userId && l.isOnline)
    allLocations.filter (visibleToViewer db userID)

/-- `areFriends` (identical in `LocationRepository` and
`FriendController`): canonicalize the pair by string order, then `First`
on `(user1_id, user2_id)`. -/
def areFriends (db : DB) (user1ID user2ID : String) : Bool :=
  let p := if user1ID > user2ID then (user2ID, user1ID) else (user1ID, user2ID)
  (db.friendships.find? (fun f => f.user1Id == p.1 && f.user2Id == p.2)).isSome

/-- `LocationRepository.IsUserAllowedToSeeLocation`: friendship is checked
first and short-circuits to `false`; then the owner's settings decide
(absent settings default to visible-to-friends), with an explicit
`default` case returning `false`. -/
def isUserAllowedToSeeLocation (db : DB) (ownerUserID requestingUserID : String) :
    Bool :=
  if !areFriends db ownerUserID requestingUserID then false
  else
    match getVisibilitySettings db ownerUserID with
    | none => true
    | some settings =>
        match settings.visibilityMode with
        | "all" => true
        | "friends" => true
        | "custom" => allowedRowExists db ownerUserID requestingUserID
        | "none" => false
        | _ => false

/-- `LocationRepository.UpdateVisibilitySettings`: upsert keyed on
`user_id`; the update map only touches `visibility_mode` and
`accuracy_level`. -/
def updateVisibilitySettingsRepo (db : DB)
    (settings : LocationVisibilitySettings) : DB :=
  match db.settings.find? (fun s => s.userId == settings.userId) with
  | none => { db with settings := db.settings ++ [settings] }
  | some existing =>
      { db with
        settings := db.settings.map (fun s =>
          if s.userId == existing.userId then
            { s with
              visibilityMode := settings.visibilityMode
              accuracyLevel := settings.accuracyLevel }
          else s) }

/-- `LocationRepository.SetAllowedUsers`: inside one transaction, delete
every allow-list row of the owner, then insert one row per allowed user. -/
def setAllowedUsers (db : DB) (userID : String) (allowedUserIDs : List String) :
    DB :=
  { db with
    allowed := db.allowed.filter (fun a => !(a.ownerUserId == userID)) ++
      allowedUserIDs.map (fun uid => ⟨userID, uid⟩) }

/-- `LocationRepository.CleanupOldLocations`: bulk update of every
presence row with `updated_at < now - olderThan`, setting
`is_online = false` and `is_available = false` (gorm touches `updated_at`
on an `Updates` call). -/
def cleanupOldLocations (db : DB) (olderThan now : ℤ) : DB :=
  let cutoffTime := now - olderThan
  { db with
    locations := db.locations.map (fun l =>
      if l.updatedAt < cutoffTime then
        { l with isOnline := false, isAvailable := false, updatedAt := now }
      else l) }

/-! ## `services.LocationService` (computable part) -/

/-- `LocationService.UpdateLocation`: validate the coordinates, apply the
request's accuracy level to them, default `is_available` to `true` when the
pointer is nil, build the row and upsert it. -/
def updateLocation (db : DB) (userID : String) (req : UpdateLocationRequest)
    (user : GoUser) (now : ℤ) : Option Err × DB :=
  if !(isValidLatitude req.latitude) || !(isValidLongitude req.longitude) then
    (some .invalidCoordinate, db)
  else
    let adjusted := applyAccuracyLevel req.latitude req.longitude req.accuracyLevel
    let isAvailable := req.isAvailable.getD true
    let location : UserLocation :=
      { id := userID ++ "_location"
        userId := userID
        username := user.name
        latitude := adjusted.1
        longitude := adjusted.2
        accuracy := req.accuracy
        isAvailable := isAvailable
        isOnline := true
        lastSeen := now
        status := req.status
        updatedAt := now }
    (none, updateUserLocation db location now)

/-- `LocationService.UpdateVisibilitySettings`: validate both enums,
upsert the settings row, and when the mode is `"custom"` and the request
carries an allow-list (non-nil pointer; `none` models a nil slice),
replace the allow-list. -/
def updateVisibilitySettingsService (db : DB) (userID : String)
    (req : UpdateVisibilityRequest) : Option Err × DB :=
  if !(req.visibilityMode == "all" || req.visibilityMode == "friends" ||
       req.visibilityMode == "custom" || req.visibilityMode == "none") then
    (some .invalidArgument, db)
  else if !(req.accuracyLevel == "precise" || req.accuracyLevel == "approximate" ||
       req.accuracyLevel == "city") then
    (some .invalidArgument, db)
  else
    let settings : LocationVisibilitySettings :=
      { userId := userID
        visibilityMode := req.visibilityMode
        accuracyLevel := req.accuracyLevel }
    let db₁ := updateVisibilitySettingsRepo db settings
    if req.visibilityMode == "custom" then
      (none, setAllowedUsers db₁ userID req.allowedUserIDs)
    else
      (none, db₁)

/-- `LocationService.CleanupInactiveLocations`: mark users offline when no
update arrived in the last 15 minutes (900 seconds). -/
def cleanupInactiveLocations (db : DB) (now : ℤ) : DB :=
  cleanupOldLocations db (15 * 60) now

/-! ## `controllers.LocatorController` -/

/-- Gin's `ShouldBindJSON` validation of `UpdateVisibilityRequest`: both
fields carry `binding:"required,oneof=..."` tags, so a request whose mode
or accuracy level is not one of the enumerated strings is rejected with a
400 before the handler body runs. -/
def bindUpdateVisibilityRequest (req : UpdateVisibilityRequest) : Bool :=
  (req.visibilityMode == "all" || req.visibilityMode == "friends" ||
   req.visibilityMode == "custom" || req.visibilityMode == "none") &&
  (req.accuracyLevel == "precise" || req.accuracyLevel == "approximate" ||
   req.accuracyLevel == "city")

/-- `LocatorController.UpdateVisibility`: bind-validate the body, reject a
`"custom"` mode with an empty `allowed_user_ids` list with a 400 before any
store mutation, then delegate to the service. -/
def updateVisibilityController (db : DB) (userID : String)
    (req : UpdateVisibilityRequest) : Option Err × DB :=
  if !(bindUpdateVisibilityRequest req) then
    (some .invalidArgument, db)
  else if req.visibilityMode == "custom" && req.allowedUserIDs.length == 0 then
    (some .invalidArgument, db)
  else
    updateVisibilitySettingsService db userID req

/-! ## `controllers.FriendController` -/

/-- `FriendController.SendFriendRequest`: reject self-requests, 404 when
the receiver does not exist, 409 when already friends, 409 when a pending
request exists in either direction, otherwise create one `pending`
request (gorm assigns the next auto-increment id). -/
def sendFriendRequest (db : DB) (senderID receiverID : String) :
    Option Err × DB :=
  if senderID == receiverID then (some .selfReference, db)
  else if !(db.users.any (fun u => u.id == receiverID)) then (some .notFound, db)
  else if areFriends db senderID receiverID then (some .alreadyFriends, db)
  else if (db.requests.any (fun r =>
      ((r.senderId == senderID && r.receiverId == receiverID) ||
       (r.senderId == receiverID && r.receiverId == senderID)) &&
      r.status == RequestStatus.pending)) then
    (some .duplicateRequest, db)
  else
    (none,
      { db with
        requests := db.requests ++
          [{ id := db.nextRequestId
             senderId := senderID
             receiverId := receiverID
             status := RequestStatus.pending }]
        nextRequestId := db.nextRequestId + 1 })

/-- Canonical friendship row inserted by `AcceptFriendRequest`: the pair is
swapped so the smaller id comes first. -/
def canonicalPair (user1ID user2ID : String) : String × String :=
  if user1ID > user2ID then (user2ID, user1ID) else (user1ID, user2ID)

/-- `FriendController.AcceptFriendRequest`: 404 unless a `pending` request
with the given id and `receiver_id = actingUser` exists; on success one
transaction saves the request with status `accepted` and creates the
canonical friendship row. -/
def acceptFriendRequest (db : DB) (requestID : ℕ) (userID : String) :
    Option Err × DB :=
  match db.requests.find? (fun r =>
      r.id == requestID && r.receiverId == userID &&
      r.status == RequestStatus.pending) with
  | none => (some .notFound, db)
  | some friendRequest =>
      let p := canonicalPair friendRequest.senderId friendRequest.receiverId
      (none,
        { db with
          requests := db.requests.map (fun r =>
            if r.id == friendRequest.id then
              { r with status := RequestStatus.accepted }
            else r)
          friendships := db.friendships ++ [{ user1Id := p.1, user2Id := p.2 }] })

/-- `FriendController.RejectFriendRequest`: same lookup as accept; on
success the request status becomes `rejected` and nothing else changes. -/
def rejectFriendRequest (db : DB) (requestID : ℕ) (userID : String) :
    Option Err × DB :=
  match db.requests.find? (fun r =>
      r.id == requestID && r.receiverId == userID &&
      r.status == RequestStatus.pending) with
  | none => (some .notFound, db)
  | some friendRequest =>
      (none,
        { db with
          requests := db.requests.map (fun r =>
            if r.id == friendRequest.id then
              { r with status := RequestStatus.rejected }
            else r) })

/-- `FriendController.RemoveFriend`: reject a self-removal, canonicalize
the pair, 404 when no friendship row exists, otherwise delete the found
row; friend-request rows are untouched. -/
def removeFriend (db : DB) (userID friendID : String) : Option Err × DB :=
  if userID == friendID then (some .invalidArgument, db)
  else
    let p := canonicalPair userID friendID
    match db.friendships.find? (fun f =>
        f.user1Id == p.1 && f.user2Id == p.2) with
    | none => (some .notFound, db)
    | some _ =>
        (none,
          { db with
            friendships := db.friendships.eraseP (fun f =>
              f.user1Id == p.1 && f.user2Id == p.2) })

/-- A database with a given user table and all other tables empty — the
state of a freshly migrated deployment. -/
def DB.init (users : List GoUser) : DB :=
  { users := users
    locations := []
    settings := []
    allowed := []
    friendships := []
    requests := []
    nextRequestId := 1 }

/-- States reachable from a fresh database through the friend-graph
endpoints (send / accept / reject / remove). -/
inductive Reachable : DB → Prop where
  | init (users : List GoUser) : Reachable (DB.init users)
  | send (db : DB) (s r : String) :
      Reachable db → Reachable (sendFriendRequest db s r).2
  | accept (db : DB) (rid : ℕ) (u : String) :
      Reachable db → Reachable (acceptFriendRequest db rid u).2
  | reject (db : DB) (rid : ℕ) (u : String) :
      Reachable db → Reachable (rejectFriendRequest db rid u).2
  | remove (db : DB) (u f : String) :
      Reachable db → Reachable (removeFriend db u f).2

/-- States reachable through the friend-request handshake alone
(send / accept / reject, no friendship removal). -/
inductive ReachableNoRemove : DB → Prop where
  | init (users : List GoUser) : ReachableNoRemove (DB.init users)
  | send (db : DB) (s r : String) :
      ReachableNoRemove db → ReachableNoRemove (sendFriendRequest db s r).2
  | accept (db : DB) (rid : ℕ) (u : String) :
      ReachableNoRemove db → ReachableNoRemove (acceptFriendRequest db rid u).2
  | reject (db : DB) (rid : ℕ) (u : String) :
      ReachableNoRemove db → ReachableNoRemove (rejectFriendRequest db rid u).2

/-- The accepted-implies-friendship invariant of claim C4: every friend
request in status `accepted` has a friendship row for its pair (in either
component order). -/
def acceptedHasFriendship (db : DB) : Prop :=
  ∀ r ∈ db.requests, r.status = RequestStatus.accepted →
    ∃ f ∈ db.friendships,
      (f.user1Id = r.senderId ∧ f.user2Id = r.receiverId) ∨
      (f.user1Id = r.receiverId ∧ f.user2Id = r.senderId)

instance (db : DB) : Decidable (acceptedHasFriendship db) := by
  unfold acceptedHasFriendship
  exact List.decidableBAll _ _

/-! ## Haversine distance and `GetLocatorData`

`calculateDistance` uses `math.Sin`, `math.Cos`, `math.Atan2` and
`math.Sqrt`; it is embedded over `ℝ` (exact real arithmetic as the
idealization of `float64`).  Everything in this section is therefore
noncomputable. -/

open Real in
/-- Go `math.Atan2 y x`: the angle of the point `(x, y)`, mathematically
`arctan (y/x)` corrected by quadrant, `±π/2` on the positive/negative
`y`-axis and `0` at the origin. -/
noncomputable def atan2 (y x : ℝ) : ℝ :=
  if 0 < x then arctan (y / x)
  else if x = 0 then
    (if 0 < y then π / 2 else if y < 0 then -(π / 2) else 0)
  else
    (if 0 ≤ y then arctan (y / x) + π else arctan (y / x) - π)

/-- Go `math.Round` over the reals: nearest integer, halves away from
zero (the `ℝ`-valued counterpart of `goRound`). -/
noncomputable def goRoundR (x : ℝ) : ℝ :=
  if 0 ≤ x then (⌊x + 1 / 2⌋ : ℤ) else (⌈x - 1 / 2⌉ : ℤ)

open Real in
/-- `calculateDistance` from `/services/location_service.go`: haversine
distance on a sphere of radius 6371 km between two coordinate pairs,
rounded to 1 decimal place (`math.Round(distance*10)/10`, halves away from
zero). -/
noncomputable def calculateDistance (lat1 lon1 lat2 lon2 : ℚ) : ℝ :=
  let earthRadius : ℝ := 6371
  let dLat : ℝ := ((lat2 : ℝ) - (lat1 : ℝ)) * π / 180
  let dLon : ℝ := ((lon2 : ℝ) - (lon1 : ℝ)) * π / 180
  let a := Real.sin (dLat / 2) * Real.sin (dLat / 2) +
    Real.cos ((lat1 : ℝ) * π / 180) * Real.cos ((lat2 : ℝ) * π / 180) *
      Real.sin (dLon / 2) * Real.sin (dLon / 2)
  let c := 2 * atan2 (Real.sqrt a) (Real.sqrt (1 - a))
  let distance := earthRadius * c
  goRoundR (distance * 10) / 10

/-- `models.LocatorUserResponse`: one visible user in the
`GET /locator` response. -/
structure LocatorUserResponse where
  id : String
  name : String
  avatarURL : String
  latitude : ℚ
  longitude : ℚ
  isAvailable : Bool
  lastSeen : ℤ
  distanceKm : ℝ
  status : String

/-- `models.LocatorResponse`: the `GET /locator` payload. -/
structure LocatorResponse where
  count : ℕ
  users : List LocatorUserResponse

/-- The `Preload("User")` association of a location row: the `users` row
with the location's `user_id` (gorm leaves the zero value when absent). -/
def locationUserName (db : DB) (loc : UserLocation) : String :=
  ((db.users.find? (fun u => u.id == loc.userId)).map GoUser.name).getD ""

/-- The loop body of `GetLocatorData`: distance from the viewer's stored
coordinates to the candidate's stored (raw) coordinates, then the
candidate's coordinates degraded by the candidate's own accuracy level
(left raw when the candidate has no settings row). -/
noncomputable def buildLocatorUser (db : DB) (currentLocation : UserLocation)
    (loc : UserLocation) : LocatorUserResponse :=
  let distance := calculateDistance currentLocation.latitude
    currentLocation.longitude loc.latitude loc.longitude
  let adjusted :=
    match getVisibilitySettings db loc.userId with
    | none => (loc.latitude, loc.longitude)
    | some settings =>
        applyAccuracyLevel loc.latitude loc.longitude settings.accuracyLevel
  { id := loc.userId
    name := locationUserName db loc
    avatarURL := ""
    latitude := adjusted.1
    longitude := adjusted.2
    isAvailable := loc.isAvailable
    lastSeen := loc.lastSeen
    distanceKm := distance
    status := loc.status }

/-- `LocationService.GetLocatorData`: an empty (but valid) response when
the viewer has no stored presence; otherwise one response entry per
location of `GetVisibleLocations`. -/
noncomputable def getLocatorData (db : DB) (userID : String) : LocatorResponse :=
  match getUserLocation db userID with
  | none => { count := 0, users := [] }
  | some currentLocation =>
      let locations := getVisibleLocations db userID
      let users := locations.map (buildLocatorUser db currentLocation)
      { count := users.length, users := users }

/-! ## Claim C9 -/

/-- C9: for every coordinate pair and every accuracy tier, applying the
degradation function `applyAccuracyLevel` twice with the same tier yields
the same result as applying it once (proved for every `level` string, which
covers the three tiers `"precise"`, `"approximate"`, `"city"`). -/
theorem claim_C9_degrade_idempotent (lat lng : ℚ) (level : String) :
    applyAccuracyLevel (applyAccuracyLevel lat lng level).1
      (applyAccuracyLevel lat lng level).2 level =
      applyAccuracyLevel lat lng level := by
  unfold applyAccuracyLevel
  split <;> simp [roundToDecimal_idem]

/-! ## Claim C6 -/

/-- C6: `POST /locator/visibility` with mode `"custom"` and an empty
allow-list fails with an `InvalidArgumentError` (400) and the database —
in particular the visibility settings and allow-list tables — is
unchanged. -/
theorem claim_C6_custom_empty_rejected (db : DB) (userID : String)
    (req : UpdateVisibilityRequest)
    (hmode : req.visibilityMode = "custom")
    (hempty : req.allowedUserIDs = []) :
    updateVisibilityController db userID req = (some Err.invalidArgument, db) := by
  unfold updateVisibilityController bindUpdateVisibilityRequest
  by_cases hacc : (req.accuracyLevel == "precise" ||
      req.accuracyLevel == "approximate" || req.accuracyLevel == "city") = true
  · simp [hmode, hempty, hacc]
  · simp [hmode, hempty, hacc]

/-- Witness for C6 at the spec's own test vector
`updateSettings(u, "custom", "precise", [])`. -/
theorem claim_C6_custom_empty_rejected_witness :
    updateVisibilityController (DB.init []) "u"
      { visibilityMode := "custom", accuracyLevel := "precise",
        allowedUserIDs := [] } = (some Err.invalidArgument, DB.init []) :=
  claim_C6_custom_empty_rejected (DB.init []) "u" _ rfl rfl

/-! ## Claim C5 -/

/-- C5: an owner whose stored visibility mode is `"none"` is never emitted
by `GetVisibleLocations` for any viewer, and
`IsUserAllowedToSeeLocation owner viewer` is `false`, friendship
notwithstanding. -/
theorem claim_C5_mode_none_invisible (db : DB) (owner viewer : String)
    (s : LocationVisibilitySettings)
    (hs : getVisibilitySettings db owner = some s)
    (hnone : s.visibilityMode = "none") :
    (∀ loc ∈ getVisibleLocations db viewer, loc.userId ≠ owner) ∧
      isUserAllowedToSeeLocation db owner viewer = false := by
  have hvisf : ∀ loc : UserLocation, loc.userId = owner →
      visibleToViewer db viewer loc = false := by
    intro loc heq
    unfold visibleToViewer
    rw [heq, hs]
    dsimp only
    rw [hnone]
    rfl
  constructor
  · intro loc hmem heq
    unfold getVisibleLocations at hmem
    by_cases hf : ((getFriendIDs db viewer).length == 0) = true
    · rw [if_pos hf] at hmem
      exact absurd hmem (List.not_mem_nil loc)
    · rw [if_neg hf] at hmem
      have hvis := (List.mem_filter.mp hmem).2
      rw [hvisf loc heq] at hvis
      exact Bool.false_ne_true hvis
  · unfold isUserAllowedToSeeLocation
    cases hb : areFriends db owner viewer
    · rfl
    · simp only [hs, hnone, Bool.not_true]
      simp

/-- Witness for C5: owner `"a"` with mode `"none"`, viewer `"b"` an
accepted friend; `"a"`'s online row is not visible and the policy check
denies. -/
theorem claim_C5_mode_none_invisible_witness :
    (∀ loc ∈ getVisibleLocations
        { users := [⟨"a", "A"⟩, ⟨"b", "B"⟩]
          locations := [⟨"a_location", "a", "A", 47, 19, 0, true, true, 0, "", 0⟩]
          settings := [⟨"a", "none", "precise"⟩]
          allowed := []
          friendships := [⟨"a", "b"⟩]
          requests := []
          nextRequestId := 1 } "b", loc.userId ≠ "a") ∧
      isUserAllowedToSeeLocation
        { users := [⟨"a", "A"⟩, ⟨"b", "B"⟩]
          locations := [⟨"a_location", "a", "A", 47, 19, 0, true, true, 0, "", 0⟩]
          settings := [⟨"a", "none", "precise"⟩]
          allowed := []
          friendships := [⟨"a", "b"⟩]
          requests := []
          nextRequestId := 1 } "a" "b" = false :=
  claim_C5_mode_none_invisible _ "a" "b" ⟨"a", "none", "precise"⟩ rfl rfl

/-! ## Claim C8 -/

/-- C8: one sweeper tick (`CleanupInactiveLocations`, threshold 15 minutes)
yields, for every presence row whose last update is older than the
threshold, a row for the same user with `isOnline = false` and
`isAvailable = false` and with coordinates, status and last-seen
unchanged. -/
theorem claim_C8_sweeper_marks_stale_offline (db : DB) (now : ℤ)
    (loc : UserLocation) (hmem : loc ∈ db.locations)
    (hstale : loc.updatedAt < now - 15 * 60) :
    ∃ loc' ∈ (cleanupInactiveLocations db now).locations,
      loc'.userId = loc.userId ∧ loc'.isOnline = false ∧
      loc'.isAvailable = false ∧ loc'.latitude = loc.latitude ∧
      loc'.longitude = loc.longitude ∧ loc'.status = loc.status ∧
      loc'.lastSeen = loc.lastSeen := by
  refine ⟨{ loc with isOnline := false, isAvailable := false, updatedAt := now },
    ?_, rfl, rfl, rfl, rfl, rfl, rfl, rfl⟩
  unfold cleanupInactiveLocations cleanupOldLocations
  exact List.mem_map.mpr ⟨loc, hmem, by rw [if_pos hstale]⟩

/-- Witness for C8 at the spec scenario: a row last updated 20 minutes
(1200 s) before `now` is flipped offline/unavailable by one tick. -/
theorem claim_C8_sweeper_marks_stale_offline_witness :
    ∃ loc' ∈ (cleanupInactiveLocations
        { users := [⟨"x", "X"⟩]
          locations := [⟨"x_location", "x", "X", 47, 19, 0, true, true, -1200, "riding", -1200⟩]
          settings := []
          allowed := []
          friendships := []
          requests := []
          nextRequestId := 1 } 0).locations,
      loc'.userId = "x" ∧ loc'.isOnline = false ∧
      loc'.isAvailable = false ∧ loc'.latitude = 47 ∧
      loc'.longitude = 19 ∧ loc'.status = "riding" ∧
      loc'.lastSeen = -1200 :=
  claim_C8_sweeper_marks_stale_offline _ 0
    ⟨"x_location", "x", "X", 47, 19, 0, true, true, -1200, "riding", -1200⟩
    (by decide) (by decide)

/-! ## The upsert round-trip -/

/-- `mergeLocation` never changes the owning key. -/
theorem mergeLocation_userId (existing incoming : UserLocation) (now : ℤ) :
    (mergeLocation existing incoming now).userId = existing.userId := rfl

/-- In the merge branch of `UpdateUserLocation`, the first row matching the
user id in the updated table is the merged version of the row the lookup
found. -/
theorem find?_map_merge (l : List UserLocation) (loc : UserLocation)
    (now : ℤ) (existing : UserLocation)
    (hfind : l.find? (fun x => x.userId == loc.userId) = some existing) :
    (l.map (fun x =>
        if x.id == existing.id then mergeLocation x loc now else x)).find?
        (fun x => x.userId == loc.userId) =
      some (mergeLocation existing loc now) := by
  induction l with
  | nil => simp at hfind
  | cons a t ih =>
      by_cases ha : (a.userId == loc.userId) = true
      · rw [List.find?_cons, ha] at hfind
        simp only [Option.some.injEq] at hfind
        subst hfind
        rw [List.map_cons, if_pos (beq_self_eq_true a.id), List.find?_cons,
          mergeLocation_userId, ha]
      · rw [Bool.not_eq_true] at ha
        rw [List.find?_cons, ha] at hfind
        have hpa : ((if (a.id == existing.id) = true then
            mergeLocation a loc now else a).userId == loc.userId) = false := by
          by_cases hid : (a.id == existing.id) = true
          · rw [if_pos hid, mergeLocation_userId]; exact ha
          · rw [if_neg hid]; exact ha
        rw [List.map_cons, List.find?_cons, hpa]
        exact ih hfind

/-- After `UpdateUserLocation`, looking the user up returns a row carrying
the incoming row's mutable fields — in the create branch it is the incoming
row itself, in the merge branch the overwritten existing row. -/
theorem getUserLocation_after_update (db : DB) (loc : UserLocation) (now : ℤ) :
    ∃ l, getUserLocation (updateUserLocation db loc now) loc.userId = some l ∧
      l.userId = loc.userId ∧ l.latitude = loc.latitude ∧
      l.longitude = loc.longitude ∧ l.accuracy = loc.accuracy ∧
      l.isAvailable = loc.isAvailable ∧ l.isOnline = loc.isOnline ∧
      l.lastSeen = loc.lastSeen ∧ l.status = loc.status := by
  unfold updateUserLocation getUserLocation
  cases hfind : db.locations.find? (fun l => l.userId == loc.userId) with
  | none =>
      refine ⟨loc, ?_, rfl, rfl, rfl, rfl, rfl, rfl, rfl, rfl⟩
      rw [List.find?_append, hfind]
      simp
  | some existing =>
      refine ⟨mergeLocation existing loc now, ?_, ?_, rfl, rfl, rfl, rfl, rfl,
        rfl, rfl⟩
      · exact find?_map_merge db.locations loc now existing hfind
      · have hbeq := List.find?_some
          (p := fun x : UserLocation => x.userId == loc.userId) hfind
        rw [mergeLocation_userId]
        exact eq_of_beq hbeq

/-! ## Claim C2 -/

/-- The database of the C2 counterexample: one registered user `"u"` with
no stored presence. -/
def dbC2 : DB := DB.init [⟨"u", "U"⟩]

/-- The C2 counterexample request: valid coordinates (47.05, 19.05)
submitted together with `accuracy_level = "city"`. -/
def reqC2 : UpdateLocationRequest :=
  { latitude := 941 / 20
    longitude := 381 / 20
    accuracy := 0
    isAvailable := none
    accuracyLevel := "city"
    status := "" }

/-- Counterexample to C2 as stated: the update succeeds, but the
immediately following `PresenceStore.get` returns (47.1, 19.1), not the
submitted (47.05, 19.05) — the accuracy tier in the request is applied at
storage time. -/
theorem claim_C2_counterexample :
    (updateLocation dbC2 "u" reqC2 ⟨"u", "U"⟩ 0).1 = none ∧
    (getUserLocation (updateLocation dbC2 "u" reqC2 ⟨"u", "U"⟩ 0).2 "u").map
        (fun l => (l.latitude, l.longitude)) =
      some (471 / 10, 191 / 10) ∧
    ((471 : ℚ) / 10, (191 : ℚ) / 10) ≠ (941 / 20, 381 / 20) := by
  have hvlat : isValidLatitude (941 / 20) = true := by
    unfold isValidLatitude
    norm_num
  have hvlng : isValidLongitude (381 / 20) = true := by
    unfold isValidLongitude
    norm_num
  have hlatr : roundToDecimal (941 / 20) 1 = 471 / 10 := by
    unfold roundToDecimal goRound
    norm_num [Int.floor_eq_iff]
  have hlngr : roundToDecimal (381 / 20) 1 = 191 / 10 := by
    unfold roundToDecimal goRound
    norm_num [Int.floor_eq_iff]
  refine ⟨?_, ?_, by norm_num⟩ <;>
    simp [updateLocation, reqC2, hvlat, hvlng, applyAccuracyLevel, hlatr, hlngr,
      updateUserLocation, getUserLocation, dbC2, DB.init]

/-- C2 as amended: `updateLocation` stores
`applyAccuracyLevel(lat, lng, req.accuracy_level)`; the round-trip is
verbatim exactly when the request carries no degrading accuracy level
(absent, i.e. empty string, or `"precise"`) — degradation at storage time
does happen otherwise. -/
theorem claim_C2_amended (db : DB) (userID : String)
    (req : UpdateLocationRequest) (user : GoUser) (now : ℤ)
    (hlat : isValidLatitude req.latitude = true)
    (hlng : isValidLongitude req.longitude = true) :
    (updateLocation db userID req user now).1 = none ∧
    ∃ l, getUserLocation (updateLocation db userID req user now).2 userID =
        some l ∧
      l.latitude = (applyAccuracyLevel req.latitude req.longitude
        req.accuracyLevel).1 ∧
      l.longitude = (applyAccuracyLevel req.latitude req.longitude
        req.accuracyLevel).2 ∧
      (req.accuracyLevel = "" ∨ req.accuracyLevel = "precise" →
        l.latitude = req.latitude ∧ l.longitude = req.longitude) := by
  unfold updateLocation
  rw [hlat, hlng]
  dsimp only
  obtain ⟨l, hl, _, hlat', hlng', _, _, _, _, _⟩ :=
    getUserLocation_after_update db
      { id := userID ++ "_location"
        userId := userID
        username := user.name
        latitude := (applyAccuracyLevel req.latitude req.longitude
          req.accuracyLevel).1
        longitude := (applyAccuracyLevel req.latitude req.longitude
          req.accuracyLevel).2
        accuracy := req.accuracy
        isAvailable := req.isAvailable.getD true
        isOnline := true
        lastSeen := now
        status := req.status
        updatedAt := now } now
  refine ⟨rfl, l, hl, hlat', hlng', ?_⟩
  rintro (hacc | hacc) <;>
    rw [hacc] at hlat' hlng' <;>
    exact ⟨by simp [hlat', applyAccuracyLevel],
      by simp [hlng', applyAccuracyLevel]⟩

/-- Witness for the amended C2 at a request with no accuracy level: the
stored and returned coordinates are the submitted (47.05, 19.05)
verbatim. -/
theorem claim_C2_amended_witness :
    (updateLocation dbC2 "u"
        { latitude := 941 / 20, longitude := 381 / 20, accuracy := 0
          isAvailable := none, accuracyLevel := "", status := "" }
        ⟨"u", "U"⟩ 0).1 = none ∧
    ∃ l, getUserLocation (updateLocation dbC2 "u"
        { latitude := 941 / 20, longitude := 381 / 20, accuracy := 0
          isAvailable := none, accuracyLevel := "", status := "" }
        ⟨"u", "U"⟩ 0).2 "u" = some l ∧
      l.latitude = (applyAccuracyLevel (941 / 20) (381 / 20) "").1 ∧
      l.longitude = (applyAccuracyLevel (941 / 20) (381 / 20) "").2 ∧
      ("" = "" ∨ "" = "precise" →
        l.latitude = 941 / 20 ∧ l.longitude = 381 / 20) :=
  claim_C2_amended dbC2 "u" _ ⟨"u", "U"⟩ 0
    (by norm_num [isValidLatitude]) (by norm_num [isValidLongitude])

/-! ## Claim C10 -/

/-- C10: a valid update request that omits `is_available` (nil pointer)
always stores `isAvailable = true` — the flag is reset, not preserved. -/
theorem claim_C10_omitted_availability_resets_true (db : DB) (userID : String)
    (req : UpdateLocationRequest) (user : GoUser) (now : ℤ)
    (havail : req.isAvailable = none)
    (hlat : isValidLatitude req.latitude = true)
    (hlng : isValidLongitude req.longitude = true) :
    ∃ l, getUserLocation (updateLocation db userID req user now).2 userID =
        some l ∧ l.isAvailable = true := by
  unfold updateLocation
  rw [hlat, hlng]
  dsimp only
  obtain ⟨l, hl, _, _, _, _, hav, _, _, _⟩ :=
    getUserLocation_after_update db
      { id := userID ++ "_location"
        userId := userID
        username := user.name
        latitude := (applyAccuracyLevel req.latitude req.longitude
          req.accuracyLevel).1
        longitude := (applyAccuracyLevel req.latitude req.longitude
          req.accuracyLevel).2
        accuracy := req.accuracy
        isAvailable := req.isAvailable.getD true
        isOnline := true
        lastSeen := now
        status := req.status
        updatedAt := now } now
  refine ⟨l, hl, ?_⟩
  rw [hav, havail]
  rfl

/-- Witness for C10: the user had previously stored
`isAvailable = false`; an update omitting the flag flips it back to
`true`. -/
theorem claim_C10_omitted_availability_resets_true_witness :
    ∃ l, getUserLocation (updateLocation
        { users := [⟨"u", "U"⟩]
          locations := [⟨"u_location", "u", "U", 1, 2, 0, false, true, 0, "", 0⟩]
          settings := []
          allowed := []
          friendships := []
          requests := []
          nextRequestId := 1 } "u"
        { latitude := 3, longitude := 4, accuracy := 0
          isAvailable := none, accuracyLevel := "", status := "" }
        ⟨"u", "U"⟩ 5).2 "u" = some l ∧ l.isAvailable = true :=
  claim_C10_omitted_availability_resets_true _ "u" _ ⟨"u", "U"⟩ 5 rfl
    (by decide) (by decide)

/-! ## Claim C1 -/

/-- The database of the C1 counterexample: `"a"` and `"b"` are online, not
friends, and `"a"` has visibility mode `"all"`. -/
def dbC1 : DB :=
  { users := [⟨"a", "A"⟩, ⟨"b", "B"⟩]
    locations := [⟨"a_location", "a", "A", 47, 19, 0, true, true, 0, "", 0⟩,
      ⟨"b_location", "b", "B", 47, 19, 0, true, true, 0, "", 0⟩]
    settings := [⟨"a", "all", "city"⟩]
    allowed := []
    friendships := []
    requests := []
    nextRequestId := 1 }

/-- Counterexample to C1 as stated: viewer `"b"` has a stored presence,
owner `"a"` is online with visibility mode `"all"` and is not `"b"`'s
friend, yet `"b"`'s `GetVisibleLocations` result is empty — the candidate
set is pre-filtered to the viewer's friends, so the `mode = all` owner
does not appear. -/
theorem claim_C1_counterexample :
    (getUserLocation dbC1 "b").isSome = true ∧
    (∃ loc ∈ dbC1.locations, loc.userId = "a" ∧ loc.isOnline = true) ∧
    getVisibilitySettings dbC1 "a" = some ⟨"a", "all", "city"⟩ ∧
    areFriends dbC1 "a" "b" = false ∧
    getVisibleLocations dbC1 "b" = [] := by
  decide

/-- C1 as amended: the candidate set of `GetVisibleLocations` is the
viewer's friends with `isOnline = true` (not all online users), and among
those friends an online owner with visibility mode `"all"` does appear in
the result. -/
theorem claim_C1_amended (db : DB) (viewer : String) :
    (∀ loc ∈ getVisibleLocations db viewer,
      loc.userId ∈ getFriendIDs db viewer ∧ loc.isOnline = true) ∧
    (∀ loc ∈ db.locations, loc.userId ∈ getFriendIDs db viewer →
      loc.isOnline = true →
      ∀ s, getVisibilitySettings db loc.userId = some s →
        s.visibilityMode = "all" → loc ∈ getVisibleLocations db viewer) := by
  constructor
  · intro loc hmem
    unfold getVisibleLocations at hmem
    by_cases hf : ((getFriendIDs db viewer).length == 0) = true
    · rw [if_pos hf] at hmem
      exact absurd hmem (List.not_mem_nil loc)
    · rw [if_neg hf] at hmem
      have h1 := List.mem_filter.mp (List.mem_filter.mp hmem).1
      have h2 := h1.2
      rw [Bool.and_eq_true] at h2
      exact ⟨List.elem_iff.mp h2.1, h2.2⟩
  · intro loc hmem hfr hon s hs hall
    unfold getVisibleLocations
    have hne : ((getFriendIDs db viewer).length == 0) = false := by
      cases hft : getFriendIDs db viewer with
      | nil => rw [hft] at hfr; exact absurd hfr (List.not_mem_nil _)
      | cons a t => rfl
    rw [if_neg (by rw [hne]; exact Bool.false_ne_true)]
    refine List.mem_filter.mpr ⟨List.mem_filter.mpr ⟨hmem, ?_⟩, ?_⟩
    · rw [Bool.and_eq_true]
      exact ⟨List.elem_iff.mpr hfr, hon⟩
    · unfold visibleToViewer
      rw [hs]
      dsimp only
      rw [hall]
      rfl

/-- Witness for the amended C1: when `"a"` and `"b"` are friends and `"a"`
is online with mode `"all"`, `"a"`'s row is in `"b"`'s result. -/
theorem claim_C1_amended_witness :
    (⟨"a_location", "a", "A", 47, 19, 0, true, true, 0, "", 0⟩ : UserLocation) ∈
      getVisibleLocations
        { users := [⟨"a", "A"⟩, ⟨"b", "B"⟩]
          locations := [⟨"a_location", "a", "A", 47, 19, 0, true, true, 0, "", 0⟩,
            ⟨"b_location", "b", "B", 47, 19, 0, true, true, 0, "", 0⟩]
          settings := [⟨"a", "all", "city"⟩]
          allowed := []
          friendships := [⟨"a", "b"⟩]
          requests := []
          nextRequestId := 1 } "b" :=
  (claim_C1_amended _ "b").2
    ⟨"a_location", "a", "A", 47, 19, 0, true, true, 0, "", 0⟩
    (by decide) (by decide) (by decide) ⟨"a", "all", "city"⟩ (by decide) rfl

/-! ## Claim C7 -/

/-- Under canonical storage (`user1Id < user2Id` in every friendship row,
as every creation site and the schema constraint guarantee), `areFriends`
decides the existence of a friendship row for the unordered pair. -/
theorem areFriends_iff_exists (db : DB) (u v : String)
    (hwf : ∀ f ∈ db.friendships, f.user1Id < f.user2Id) :
    areFriends db u v = true ↔
      ∃ f ∈ db.friendships,
        (f.user1Id = u ∧ f.user2Id = v) ∨ (f.user1Id = v ∧ f.user2Id = u) := by
  unfold areFriends
  by_cases hgt : u > v
  · rw [if_pos hgt]
    rw [Option.isSome_iff_exists]
    constructor
    · rintro ⟨f, hf⟩
      have hmemf := List.mem_of_find?_eq_some hf
      have hp := List.find?_some hf
      rw [Bool.and_eq_true, beq_iff_eq, beq_iff_eq] at hp
      exact ⟨f, hmemf, Or.inr ⟨hp.1, hp.2⟩⟩
    · rintro ⟨f, hmemf, (⟨h1, h2⟩ | ⟨h1, h2⟩)⟩
      · exact absurd (h1 ▸ h2 ▸ hwf f hmemf) (lt_asymm hgt)
      · have : (db.friendships.find? (fun f => f.user1Id == v && f.user2Id == u)).isSome := by
          rw [List.find?_isSome]
          exact ⟨f, hmemf, by rw [Bool.and_eq_true, beq_iff_eq, beq_iff_eq]; exact ⟨h1, h2⟩⟩
        rwa [Option.isSome_iff_exists] at this
  · rw [if_neg hgt]
    rw [Option.isSome_iff_exists]
    constructor
    · rintro ⟨f, hf⟩
      have hmemf := List.mem_of_find?_eq_some hf
      have hp := List.find?_some hf
      rw [Bool.and_eq_true, beq_iff_eq, beq_iff_eq] at hp
      exact ⟨f, hmemf, Or.inl ⟨hp.1, hp.2⟩⟩
    · rintro ⟨f, hmemf, (⟨h1, h2⟩ | ⟨h1, h2⟩)⟩
      · have : (db.friendships.find? (fun f => f.user1Id == u && f.user2Id == v)).isSome := by
          rw [List.find?_isSome]
          exact ⟨f, hmemf, by rw [Bool.and_eq_true, beq_iff_eq, beq_iff_eq]; exact ⟨h1, h2⟩⟩
        rwa [Option.isSome_iff_exists] at this
      · exact absurd (h1 ▸ h2 ▸ hwf f hmemf) hgt

/-- C7: `SendFriendRequest` fails with `SelfReferenceError` on a
self-request, with `AlreadyFriendsError` when a friendship row for the
pair exists, with `DuplicateRequestError` when a pending request exists in
either direction, and otherwise appends exactly one new `pending` request
(given canonical friendship storage and an existing receiver). -/
theorem claim_C7_send_request_errors (db : DB) (sender receiver : String)
    (hwf : ∀ f ∈ db.friendships, f.user1Id < f.user2Id)
    (hrecv : ∃ u ∈ db.users, u.id = receiver) :
    (sender = receiver →
      sendFriendRequest db sender receiver = (some Err.selfReference, db)) ∧
    (sender ≠ receiver →
      ((∃ f ∈ db.friendships,
          (f.user1Id = sender ∧ f.user2Id = receiver) ∨
          (f.user1Id = receiver ∧ f.user2Id = sender)) →
        sendFriendRequest db sender receiver = (some Err.alreadyFriends, db)) ∧
      (¬(∃ f ∈ db.friendships,
          (f.user1Id = sender ∧ f.user2Id = receiver) ∨
          (f.user1Id = receiver ∧ f.user2Id = sender)) →
        ((∃ r ∈ db.requests,
            ((r.senderId = sender ∧ r.receiverId = receiver) ∨
             (r.senderId = receiver ∧ r.receiverId = sender)) ∧
            r.status = RequestStatus.pending) →
          sendFriendRequest db sender receiver =
            (some Err.duplicateRequest, db)) ∧
        (¬(∃ r ∈ db.requests,
            ((r.senderId = sender ∧ r.receiverId = receiver) ∨
             (r.senderId = receiver ∧ r.receiverId = sender)) ∧
            r.status = RequestStatus.pending) →
          sendFriendRequest db sender receiver =
            (none, { db with
              requests := db.requests ++
                [{ id := db.nextRequestId, senderId := sender,
                   receiverId := receiver, status := RequestStatus.pending }]
              nextRequestId := db.nextRequestId + 1 })))) := by
  have hrecv' : (db.users.any (fun u => u.id == receiver)) = true := by
    rcases hrecv with ⟨u, hu, he⟩
    rw [List.any_eq_true]
    exact ⟨u, hu, by rw [he]; exact beq_self_eq_true receiver⟩
  have hpend : (db.requests.any (fun r =>
      ((r.senderId == sender && r.receiverId == receiver) ||
       (r.senderId == receiver && r.receiverId == sender)) &&
      r.status == RequestStatus.pending)) = true ↔
      (∃ r ∈ db.requests,
        ((r.senderId = sender ∧ r.receiverId = receiver) ∨
         (r.senderId = receiver ∧ r.receiverId = sender)) ∧
        r.status = RequestStatus.pending) := by
    rw [List.any_eq_true]
    constructor
    · rintro ⟨r, hr, hp⟩
      rw [Bool.and_eq_true, Bool.or_eq_true, Bool.and_eq_true, Bool.and_eq_true,
        beq_iff_eq, beq_iff_eq, beq_iff_eq, beq_iff_eq, beq_iff_eq] at hp
      exact ⟨r, hr, hp⟩
    · rintro ⟨r, hr, hp⟩
      refine ⟨r, hr, ?_⟩
      rw [Bool.and_eq_true, Bool.or_eq_true, Bool.and_eq_true, Bool.and_eq_true,
        beq_iff_eq, beq_iff_eq, beq_iff_eq, beq_iff_eq, beq_iff_eq]
      exact hp
  unfold sendFriendRequest
  constructor
  · intro heq
    rw [if_pos (by rw [heq]; exact beq_self_eq_true receiver)]
  · intro hne
    have hne' : (sender == receiver) = false := by
      rw [beq_eq_false_iff_ne]
      exact hne
    rw [if_neg (by rw [hne']; exact Bool.false_ne_true),
      if_neg (by rw [hrecv']; exact (by decide : ¬((!true) = true)))]
    constructor
    · intro hex
      rw [if_pos ((areFriends_iff_exists db sender receiver hwf).mpr hex)]
    · intro hnex
      have haf : areFriends db sender receiver = false :=
        Bool.eq_false_iff.mpr (fun h =>
          hnex ((areFriends_iff_exists db sender receiver hwf).mp h))
      rw [if_neg (by rw [haf]; exact Bool.false_ne_true)]
      constructor
      · intro hp
        rw [if_pos (hpend.mpr hp)]
      · intro hnp
        have hany : (db.requests.any (fun r =>
            ((r.senderId == sender && r.receiverId == receiver) ||
             (r.senderId == receiver && r.receiverId == sender)) &&
            r.status == RequestStatus.pending)) = false :=
          Bool.eq_false_iff.mpr (fun h => hnp (hpend.mp h))
        rw [if_neg (by rw [hany]; exact Bool.false_ne_true)]

/-- Witness for C7: in a fresh database with users `"a"` and `"b"`,
`SendFriendRequest("a", "b")` succeeds and appends the single pending
request with id 1. -/
theorem claim_C7_send_request_errors_witness :
    sendFriendRequest (DB.init [⟨"a", "A"⟩, ⟨"b", "B"⟩]) "a" "b" =
      (none, { (DB.init [⟨"a", "A"⟩, ⟨"b", "B"⟩]) with
        requests := [⟨1, "a", "b", RequestStatus.pending⟩]
        nextRequestId := 2 }) :=
  (((claim_C7_send_request_errors (DB.init [⟨"a", "A"⟩, ⟨"b", "B"⟩]) "a" "b"
      (by decide) ⟨⟨"b", "B"⟩, by decide, rfl⟩).2
    (by decide)).2 (by decide)).2 (by decide)

/-! ## Claim C4 -/

/-- Auxiliary invariant: every request id is below the auto-increment
counter and ids are pairwise distinct (gorm primary keys). -/
def requestsWF (db : DB) : Prop :=
  (∀ r ∈ db.requests, r.id < db.nextRequestId) ∧
  db.requests.Pairwise (fun a b => a.id ≠ b.id)

/-- In a list with pairwise-distinct ids, the id determines the element. -/
theorem pairwise_ne_id_inj (l : List FriendRequest)
    (hpw : l.Pairwise (fun a b => a.id ≠ b.id)) :
    ∀ a ∈ l, ∀ b ∈ l, a.id = b.id → a = b := by
  induction l with
  | nil => intro a ha; exact absurd ha (List.not_mem_nil a)
  | cons x t ih =>
      rw [List.pairwise_cons] at hpw
      intro a ha b hb he
      rcases List.mem_cons.mp ha with rfl | ha'
      · rcases List.mem_cons.mp hb with rfl | hb'
        · rfl
        · exact absurd he (hpw.1 b hb')
      · rcases List.mem_cons.mp hb with rfl | hb'
        · exact absurd he.symm (hpw.1 a ha')
        · exact ih hpw.2 a ha' b hb' he

/-- `SendFriendRequest` preserves the id invariant and the
accepted-implies-friendship invariant. -/
theorem sendFriendRequest_preserves (db : DB) (s r : String)
    (h : requestsWF db ∧ acceptedHasFriendship db) :
    requestsWF (sendFriendRequest db s r).2 ∧
      acceptedHasFriendship (sendFriendRequest db s r).2 := by
  unfold sendFriendRequest
  split
  · exact h
  · split
    · exact h
    · split
      · exact h
      · split
        · exact h
        · obtain ⟨⟨hbound, hpw⟩, hacc⟩ := h
          refine ⟨⟨?_, ?_⟩, ?_⟩
          · intro req hreq
            rcases List.mem_append.mp hreq with h1 | h2
            · exact lt_trans (hbound req h1) (Nat.lt_succ_self _)
            · rw [List.mem_singleton] at h2
              subst h2
              exact Nat.lt_succ_self _
          · rw [List.pairwise_append]
            refine ⟨hpw, List.pairwise_singleton _ _, ?_⟩
            intro a ha b hb
            rw [List.mem_singleton] at hb
            subst hb
            exact Nat.ne_of_lt (hbound a ha)
          · intro req hreq hst
            rcases List.mem_append.mp hreq with h1 | h2
            · exact hacc req h1 hst
            · rw [List.mem_singleton] at h2
              subst h2
              exact RequestStatus.noConfusion hst

/-- `AcceptFriendRequest` preserves the id invariant and the
accepted-implies-friendship invariant (the new accepted request gets the
friendship row created in its own transaction). -/
theorem acceptFriendRequest_preserves (db : DB) (rid : ℕ) (u : String)
    (h : requestsWF db ∧ acceptedHasFriendship db) :
    requestsWF (acceptFriendRequest db rid u).2 ∧
      acceptedHasFriendship (acceptFriendRequest db rid u).2 := by
  obtain ⟨⟨hbound, hpw⟩, hacc⟩ := h
  unfold acceptFriendRequest
  cases hfind : db.requests.find? (fun r =>
      r.id == rid && r.receiverId == u && r.status == RequestStatus.pending) with
  | none => exact ⟨⟨hbound, hpw⟩, hacc⟩
  | some fr =>
      have hfrmem := List.mem_of_find?_eq_some hfind
      refine ⟨⟨?_, ?_⟩, ?_⟩
      · intro req hreq
        rcases List.mem_map.mp hreq with ⟨r0, hr0, heq⟩
        subst heq
        by_cases hid : (r0.id == fr.id) = true
        · rw [if_pos hid]
          exact hbound r0 hr0
        · rw [if_neg hid]
          exact hbound r0 hr0
      · refine List.Pairwise.map _ (fun a b hab => ?_) hpw
        have ha' : (if (a.id == fr.id) = true then
            { a with status := RequestStatus.accepted } else a).id = a.id := by
          by_cases h' : (a.id == fr.id) = true
          · rw [if_pos h']
          · rw [if_neg h']
        have hb' : (if (b.id == fr.id) = true then
            { b with status := RequestStatus.accepted } else b).id = b.id := by
          by_cases h' : (b.id == fr.id) = true
          · rw [if_pos h']
          · rw [if_neg h']
        rw [ha', hb']
        exact hab
      · intro req hreq hst
        rcases List.mem_map.mp hreq with ⟨r0, hr0, heq⟩
        subst heq
        by_cases hid : (r0.id == fr.id) = true
        · have hr0fr : r0 = fr :=
            pairwise_ne_id_inj db.requests hpw r0 hr0 fr hfrmem (eq_of_beq hid)
          subst hr0fr
          rw [if_pos hid]
          refine ⟨⟨(canonicalPair r0.senderId r0.receiverId).1,
            (canonicalPair r0.senderId r0.receiverId).2⟩,
            List.mem_append_right _ (List.mem_singleton.mpr rfl), ?_⟩
          unfold canonicalPair
          by_cases hgt : r0.senderId > r0.receiverId
          · rw [if_pos hgt]
            exact Or.inr ⟨rfl, rfl⟩
          · rw [if_neg hgt]
            exact Or.inl ⟨rfl, rfl⟩
        · rw [if_neg hid] at hst ⊢
          obtain ⟨f, hf, hp⟩ := hacc r0 hr0 hst
          exact ⟨f, List.mem_append_left _ hf, hp⟩

/-- `RejectFriendRequest` preserves the id invariant and the
accepted-implies-friendship invariant. -/
theorem rejectFriendRequest_preserves (db : DB) (rid : ℕ) (u : String)
    (h : requestsWF db ∧ acceptedHasFriendship db) :
    requestsWF (rejectFriendRequest db rid u).2 ∧
      acceptedHasFriendship (rejectFriendRequest db rid u).2 := by
  obtain ⟨⟨hbound, hpw⟩, hacc⟩ := h
  unfold rejectFriendRequest
  cases hfind : db.requests.find? (fun r =>
      r.id == rid && r.receiverId == u && r.status == RequestStatus.pending) with
  | none => exact ⟨⟨hbound, hpw⟩, hacc⟩
  | some fr =>
      refine ⟨⟨?_, ?_⟩, ?_⟩
      · intro req hreq
        rcases List.mem_map.mp hreq with ⟨r0, hr0, heq⟩
        subst heq
        by_cases hid : (r0.id == fr.id) = true
        · rw [if_pos hid]
          exact hbound r0 hr0
        · rw [if_neg hid]
          exact hbound r0 hr0
      · refine List.Pairwise.map _ (fun a b hab => ?_) hpw
        have ha' : (if (a.id == fr.id) = true then
            { a with status := RequestStatus.rejected } else a).id = a.id := by
          by_cases h' : (a.id == fr.id) = true
          · rw [if_pos h']
          · rw [if_neg h']
        have hb' : (if (b.id == fr.id) = true then
            { b with status := RequestStatus.rejected } else b).id = b.id := by
          by_cases h' : (b.id == fr.id) = true
          · rw [if_pos h']
          · rw [if_neg h']
        rw [ha', hb']
        exact hab
      · intro req hreq hst
        rcases List.mem_map.mp hreq with ⟨r0, hr0, heq⟩
        subst heq
        by_cases hid : (r0.id == fr.id) = true
        · rw [if_pos hid] at hst
          exact RequestStatus.noConfusion hst
        · rw [if_neg hid] at hst ⊢
          exact hacc r0 hr0 hst

/-- Every state reachable through the handshake alone satisfies both
invariants. -/
theorem reachableNoRemove_invariant (db : DB) (h : ReachableNoRemove db) :
    requestsWF db ∧ acceptedHasFriendship db := by
  induction h with
  | init users =>
      exact ⟨⟨fun r hr => absurd hr (List.not_mem_nil r), List.Pairwise.nil⟩,
        fun r hr => absurd hr (List.not_mem_nil r)⟩
  | send db s r hdb ih => exact sendFriendRequest_preserves db s r ih
  | accept db rid u hdb ih => exact acceptFriendRequest_preserves db rid u ih
  | reject db rid u hdb ih => exact rejectFriendRequest_preserves db rid u ih

/-- The reached state of the C4 counterexample: send a request from `"a"`
to `"b"`, accept it as `"b"`, then remove the friendship. -/
def dbC4 : DB :=
  (removeFriend ((acceptFriendRequest ((sendFriendRequest
    (DB.init [⟨"a", "A"⟩, ⟨"b", "B"⟩]) "a" "b").2) 1 "b").2) "a" "b").2

/-- Counterexample to C4 as stated: the state reached by
send → accept → removeFriend is reachable, yet it contains a request in
status `accepted` with no friendship row for the pair —
`RemoveFriend` deletes the friendship but leaves the historical request
`accepted`, so the invariant does not hold in every reachable state. -/
theorem claim_C4_counterexample :
    Reachable dbC4 ∧ ¬acceptedHasFriendship dbC4 := by
  constructor
  · exact Reachable.remove _ "a" "b" (Reachable.accept _ 1 "b"
      (Reachable.send _ "a" "b" (Reachable.init _)))
  · have hgt : ¬(("a" : String) > "b") := by
      simp only [String.lt_iff_toList_lt]
      decide
    have hstep : dbC4 =
        { users := [⟨"a", "A"⟩, ⟨"b", "B"⟩]
          locations := []
          settings := []
          allowed := []
          friendships := []
          requests := [⟨1, "a", "b", RequestStatus.accepted⟩]
          nextRequestId := 2 } := by
      simp [dbC4, removeFriend, acceptFriendRequest, sendFriendRequest,
        DB.init, canonicalPair, areFriends, hgt]
    rw [hstep]
    decide

/-- C4 as amended: `AcceptFriendRequest` fails with `NotFoundError` unless
a pending request with the acting user as receiver exists; on success the
same atomic step marks the request accepted and inserts the canonical
(smaller-id-first) friendship row; consequently no request is ever
`accepted` without its friendship row in any state reachable through the
handshake alone — `RemoveFriend` can later delete the friendship row while
the accepted request remains as history. -/
theorem claim_C4_amended :
    (∀ (db : DB) (rid : ℕ) (u : String),
      db.requests.find? (fun r => r.id == rid && r.receiverId == u &&
        r.status == RequestStatus.pending) = none →
      acceptFriendRequest db rid u = (some Err.notFound, db)) ∧
    (∀ (db : DB) (rid : ℕ) (u : String) (fr : FriendRequest),
      db.requests.find? (fun r => r.id == rid && r.receiverId == u &&
        r.status == RequestStatus.pending) = some fr →
      (acceptFriendRequest db rid u).1 = none ∧
      { fr with status := RequestStatus.accepted } ∈
        (acceptFriendRequest db rid u).2.requests ∧
      (⟨(canonicalPair fr.senderId fr.receiverId).1,
        (canonicalPair fr.senderId fr.receiverId).2⟩ : Friendship) ∈
        (acceptFriendRequest db rid u).2.friendships ∧
      (canonicalPair fr.senderId fr.receiverId).1 ≤
        (canonicalPair fr.senderId fr.receiverId).2) ∧
    (∀ db : DB, ReachableNoRemove db → acceptedHasFriendship db) := by
  refine ⟨?_, ?_, fun db h => (reachableNoRemove_invariant db h).2⟩
  · intro db rid u hfind
    unfold acceptFriendRequest
    rw [hfind]
  · intro db rid u fr hfind
    unfold acceptFriendRequest
    rw [hfind]
    refine ⟨rfl, ?_, ?_, ?_⟩
    · exact List.mem_map.mpr ⟨fr, List.mem_of_find?_eq_some hfind,
        by rw [if_pos (beq_self_eq_true fr.id)]⟩
    · exact List.mem_append_right _ (List.mem_singleton.mpr rfl)
    · unfold canonicalPair
      by_cases hgt : fr.senderId > fr.receiverId
      · rw [if_pos hgt]
        exact le_of_lt hgt
      · rw [if_neg hgt]
        exact le_of_not_lt hgt

/-- Witness for the amended C4: accepting the pending request of the
freshly sent `"a" → "b"` handshake succeeds and creates both rows. -/
theorem claim_C4_amended_witness :
    (acceptFriendRequest ((sendFriendRequest
        (DB.init [⟨"a", "A"⟩, ⟨"b", "B"⟩]) "a" "b").2) 1 "b").1 = none ∧
    (⟨1, "a", "b", RequestStatus.accepted⟩ : FriendRequest) ∈
      (acceptFriendRequest ((sendFriendRequest
        (DB.init [⟨"a", "A"⟩, ⟨"b", "B"⟩]) "a" "b").2) 1 "b").2.requests ∧
    (⟨(canonicalPair "a" "b").1, (canonicalPair "a" "b").2⟩ : Friendship) ∈
      (acceptFriendRequest ((sendFriendRequest
        (DB.init [⟨"a", "A"⟩, ⟨"b", "B"⟩]) "a" "b").2) 1 "b").2.friendships ∧
    (canonicalPair "a" "b").1 ≤ (canonicalPair "a" "b").2 :=
  claim_C4_amended.2.1 ((sendFriendRequest
      (DB.init [⟨"a", "A"⟩, ⟨"b", "B"⟩]) "a" "b").2) 1 "b"
    ⟨1, "a", "b", RequestStatus.pending⟩ (by decide)

/-! ## Claim C3: haversine evaluation lemmas -/

/-- `atan2` recovers the angle from its sine and cosine under the square
roots produced by the haversine formula, for angles in `[0, π/2)`. -/
theorem atan2_sin_cos (θ : ℝ) (h0 : 0 ≤ θ) (hlt : θ < Real.pi / 2) :
    atan2 (Real.sqrt (Real.sin θ * Real.sin θ))
      (Real.sqrt (1 - Real.sin θ * Real.sin θ)) = θ := by
  have hπ := Real.pi_pos
  have hsin : 0 ≤ Real.sin θ :=
    Real.sin_nonneg_of_nonneg_of_le_pi h0 (by linarith)
  have hcos : 0 < Real.cos θ :=
    Real.cos_pos_of_mem_Ioo ⟨by linarith, hlt⟩
  have h2 : 1 - Real.sin θ * Real.sin θ = Real.cos θ * Real.cos θ := by
    have hpyth := Real.sin_sq_add_cos_sq θ
    nlinarith [hpyth]
  rw [Real.sqrt_mul_self hsin, h2, Real.sqrt_mul_self hcos.le]
  unfold atan2
  rw [if_pos hcos, ← Real.tan_eq_sin_div_cos]
  exact Real.arctan_tan (by linarith) hlt

/-- The code's distance between identical coordinate pairs is zero. -/
theorem calculateDistance_self (lat lon : ℚ) :
    calculateDistance lat lon lat lon = 0 := by
  simp only [calculateDistance, sub_self, zero_mul, zero_div, Real.sin_zero,
    mul_zero, zero_add, add_zero]
  rw [Real.sqrt_zero, sub_zero, Real.sqrt_one]
  have hz : atan2 0 1 = 0 := by
    unfold atan2
    rw [if_pos (by norm_num : (0 : ℝ) < 1)]
    norm_num [Real.arctan_zero]
  rw [hz]
  simp only [mul_zero, zero_mul]
  unfold goRoundR
  rw [if_pos le_rfl]
  norm_num

/-- Equatorial haversine: between `(0, lon1)` and `(0, lon2)` with
`lon1 ≤ lon2` (and the half-angle below `π/2`), the code's distance is the
arc length `6371 · Δlon · π / 180`, rounded to one decimal. -/
theorem calculateDistance_equator (lon1 lon2 : ℚ)
    (h0 : (0 : ℝ) ≤ (lon2 : ℝ) - (lon1 : ℝ))
    (hlt : ((lon2 : ℝ) - (lon1 : ℝ)) * Real.pi / 180 / 2 < Real.pi / 2) :
    calculateDistance 0 lon1 0 lon2 =
      goRoundR (6371 * (((lon2 : ℝ) - (lon1 : ℝ)) * Real.pi / 180) * 10) / 10 := by
  have hπ := Real.pi_pos
  have hθ0 : (0 : ℝ) ≤ ((lon2 : ℝ) - (lon1 : ℝ)) * Real.pi / 180 / 2 := by
    have h1 : (0 : ℝ) ≤ ((lon2 : ℝ) - (lon1 : ℝ)) * Real.pi :=
      mul_nonneg h0 hπ.le
    linarith
  have hmain := atan2_sin_cos (((lon2 : ℝ) - (lon1 : ℝ)) * Real.pi / 180 / 2)
    hθ0 hlt
  simp only [calculateDistance, Rat.cast_zero, sub_self, zero_mul, zero_div,
    Real.sin_zero, mul_zero, zero_add, Real.cos_zero, one_mul, mul_one]
  rw [hmain]
  have harg : (6371 : ℝ) * (2 * (((lon2 : ℝ) - (lon1 : ℝ)) * Real.pi / 180 / 2)) * 10 =
      6371 * (((lon2 : ℝ) - (lon1 : ℝ)) * Real.pi / 180) * 10 := by
    ring
  rw [harg]

/-- The value of the claim's formula on the C3 counterexample: haversine
from the viewer's raw `(0, 0.06)` to the candidate's degraded `(0, 0.1)`,
rounded to one decimal, is `4.4` km. -/
theorem calculateDistance_C3_claimed :
    calculateDistance 0 (3 / 50) 0 (1 / 10) = 22 / 5 := by
  have hπ := Real.pi_pos
  have hc : ((1 / 10 : ℚ) : ℝ) - ((3 / 50 : ℚ) : ℝ) = 1 / 25 := by
    push_cast
    norm_num
  have h0 : (0 : ℝ) ≤ ((1 / 10 : ℚ) : ℝ) - ((3 / 50 : ℚ) : ℝ) := by
    rw [hc]
    norm_num
  have hlt : (((1 / 10 : ℚ) : ℝ) - ((3 / 50 : ℚ) : ℝ)) * Real.pi / 180 / 2 <
      Real.pi / 2 := by
    rw [hc]
    linarith
  rw [calculateDistance_equator (3 / 50) (1 / 10) h0 hlt, hc]
  have hpos : (0 : ℝ) ≤ 6371 * ((1 / 25 : ℝ) * Real.pi / 180) * 10 := by
    positivity
  unfold goRoundR
  rw [if_pos hpos]
  have hfloor : ⌊(6371 : ℝ) * ((1 / 25 : ℝ) * Real.pi / 180) * 10 + 1 / 2⌋ =
      (44 : ℤ) := by
    rw [Int.floor_eq_iff]
    constructor
    · push_cast
      nlinarith [Real.pi_gt_d6]
    · push_cast
      nlinarith [Real.pi_lt_d6]
  rw [hfloor]
  norm_num

/-- Candidate row of the C3 counterexample: user `"a"` online at
`(0, 0.06)`. -/
def aLocC3 : UserLocation :=
  ⟨"a_location", "a", "A", 0, 3 / 50, 0, true, true, 0, "", 0⟩

/-- Viewer row of the C3 counterexample: user `"b"` online at the same
point `(0, 0.06)`. -/
def bLocC3 : UserLocation :=
  ⟨"b_location", "b", "B", 0, 3 / 50, 0, true, true, 0, "", 0⟩

/-- The database of the C3 counterexample: `"a"` and `"b"` are friends,
both online at `(0, 0.06)`, and `"a"` degrades coordinates to the
`"city"` tier. -/
def dbC3 : DB :=
  { users := [⟨"a", "A"⟩, ⟨"b", "B"⟩]
    locations := [aLocC3, bLocC3]
    settings := [⟨"a", "friends", "city"⟩]
    allowed := []
    friendships := [⟨"a", "b"⟩]
    requests := []
    nextRequestId := 1 }

/-- Viewer `"b"`'s own presence lookup in the C3 state. -/
theorem dbC3_getUserLocation_b : getUserLocation dbC3 "b" = some bLocC3 := by
  simp [getUserLocation, dbC3, aLocC3, bLocC3, List.find?]

/-- Viewer `"b"` sees exactly `"a"`'s row in the C3 state. -/
theorem dbC3_getVisibleLocations_b :
    getVisibleLocations dbC3 "b" = [aLocC3] := by
  simp [getVisibleLocations, getFriendIDs, dbC3, visibleToViewer,
    getVisibilitySettings, aLocC3, bLocC3, List.find?]

/-- The `GET /locator` payload for `"b"` in the C3 state: one entry, built
from `"a"`'s row. -/
theorem dbC3_locatorUsers :
    (getLocatorData dbC3 "b").users = [buildLocatorUser dbC3 bLocC3 aLocC3] := by
  unfold getLocatorData
  rw [dbC3_getUserLocation_b]
  dsimp only
  rw [dbC3_getVisibleLocations_b]
  rfl

/-- Degrading `(0, 0.06)` at the `"city"` tier yields `(0, 0.1)`. -/
theorem applyAccuracyLevel_C3 :
    applyAccuracyLevel 0 (3 / 50) "city" = (0, 1 / 10) := by
  show (roundToDecimal 0 1, roundToDecimal (3 / 50) 1) = (0, 1 / 10)
  have h1 : roundToDecimal 0 1 = 0 := by
    unfold roundToDecimal goRound
    norm_num
  have h2 : roundToDecimal (3 / 50) 1 = 1 / 10 := by
    unfold roundToDecimal goRound
    norm_num [Int.floor_eq_iff]
  rw [h1, h2]

/-- Counterexample to C3 as stated: in the C3 state the emitted entry for
`"a"` carries the degraded coordinates `(0, 0.1)` but distance `0` —
computed from `"a"`'s raw coordinates, which coincide with the viewer's —
while the claim's formula (haversine from the viewer's raw location to the
degraded location, rounded to 1 decimal) gives `4.4`. -/
theorem claim_C3_counterexample :
    (getLocatorData dbC3 "b").users.map
        (fun u => (u.id, u.latitude, u.longitude, u.distanceKm)) =
      [("a", (0 : ℚ), (1 / 10 : ℚ), (0 : ℝ))] ∧
    calculateDistance 0 (3 / 50) 0 (1 / 10) = 22 / 5 ∧
    ((0 : ℝ) ≠ 22 / 5) := by
  refine ⟨?_, calculateDistance_C3_claimed, by norm_num⟩
  rw [dbC3_locatorUsers]
  unfold buildLocatorUser
  have hset : getVisibilitySettings dbC3 "a" =
      some ⟨"a", "friends", "city"⟩ := by
    simp [getVisibilitySettings, dbC3]
  rw [List.map_cons, List.map_nil]
  have hdist : calculateDistance 0 (3 / 50) 0 (3 / 50) = 0 :=
    calculateDistance_self _ _
  simp only [aLocC3, bLocC3, hset, hdist, applyAccuracyLevel_C3]

/-- C3 as amended: every emitted entry's `distance_km` is the haversine
distance between the viewer's raw stored coordinates and the candidate's
raw stored coordinates (rounded to 1 decimal inside `calculateDistance`);
the candidate's accuracy tier degrades only the displayed coordinates,
after the distance has been computed. -/
theorem claim_C3_amended (db : DB) (userID : String)
    (currentLocation : UserLocation)
    (hcur : getUserLocation db userID = some currentLocation) :
    ∀ u ∈ (getLocatorData db userID).users,
      ∃ loc ∈ getVisibleLocations db userID,
        u.id = loc.userId ∧
        u.distanceKm = calculateDistance currentLocation.latitude
          currentLocation.longitude loc.latitude loc.longitude := by
  intro u hu
  unfold getLocatorData at hu
  rw [hcur] at hu
  dsimp only at hu
  rcases List.mem_map.mp hu with ⟨loc, hloc, heq⟩
  subst heq
  exact ⟨loc, hloc, rfl, rfl⟩

/-- Witness for the amended C3, at the C3 state: the entry built from
`"a"`'s row reports the distance from the viewer's raw coordinates to
`"a"`'s raw coordinates. -/
theorem claim_C3_amended_witness :
    ∃ loc ∈ getVisibleLocations dbC3 "b",
      (buildLocatorUser dbC3 bLocC3 aLocC3).id = loc.userId ∧
      (buildLocatorUser dbC3 bLocC3 aLocC3).distanceKm =
        calculateDistance bLocC3.latitude bLocC3.longitude
          loc.latitude loc.longitude :=
  claim_C3_amended dbC3 "b" bLocC3 dbC3_getUserLocation_b
    (buildLocatorUser dbC3 bLocC3 aLocC3)
    (by rw [dbC3_locatorUsers]; exact List.mem_singleton.mpr rfl)

end Motocosmos
